import Mathlib

/-!
Shallow embedding of the renderer core of `LearnVulkanInCLibrary`
(`src/engine/render/VulkanRenderer.cpp` / `.hpp`), together with theorems
settling the specification claims about it.

Machine integers (`uint32_t`) are modelled as `Nat`; the only place overflow
could matter is the `UINT32_MAX` sentinel, carried explicitly.  Vulkan enum
values are modelled as distinguished `Nat` constants or small inductives.
Fallible paths (C++ `throw`) are modelled with `Except`.  Backend calls that
only have external effects are modelled as entries of explicit operation
traces.  The C++ `float` arithmetic of the letterbox-viewport computation is
modelled with exact rationals.
-/

namespace LearnVulkan

/-- `VkExtent2D`: a pair of `uint32_t` dimensions. -/
structure VkExtent2D where
  width : Nat
  height : Nat
deriving DecidableEq, Repr

/-- `VkSurfaceFormatKHR`: a (pixel format, color space) pair; the enum values
are opaque `Nat` codes. -/
structure VkSurfaceFormatKHR where
  format : Nat
  colorSpace : Nat
deriving DecidableEq, Repr

/-- The `VkFormat` code `VK_FORMAT_B8G8R8A8_SRGB` (value 50 in `vulkan_core.h`). -/
def VK_FORMAT_B8G8R8A8_SRGB : Nat := 50

/-- The `VkColorSpaceKHR` code `VK_COLOR_SPACE_SRGB_NONLINEAR_KHR` (value 0). -/
def VK_COLOR_SPACE_SRGB_NONLINEAR_KHR : Nat := 0

/-- The (8-bit BGRA, sRGB nonlinear) pair preferred by `chooseSwapSurfaceFormat`. -/
def preferredSurfaceFormat : VkSurfaceFormatKHR :=
  { format := VK_FORMAT_B8G8R8A8_SRGB, colorSpace := VK_COLOR_SPACE_SRGB_NONLINEAR_KHR }

/-- The fields of `VkSurfaceCapabilitiesKHR` the renderer reads. -/
structure VkSurfaceCapabilitiesKHR where
  minImageCount : Nat
  maxImageCount : Nat
  currentExtent : VkExtent2D
  minImageExtent : VkExtent2D
  maxImageExtent : VkExtent2D
deriving DecidableEq, Repr

/-- `std::numeric_limits<uint32_t>::max()`. -/
def UINT32_MAX : Nat := 2 ^ 32 - 1

/-- `std::clamp(v, lo, hi)`: `v < lo` gives `lo`, `hi < v` gives `hi`, else `v`. -/
def stdClamp (v lo hi : Nat) : Nat :=
  if v < lo then lo else if hi < v then hi else v

/-- The loop condition of `chooseSwapSurfaceFormat` (VulkanRenderer.cpp:372):
`format == VK_FORMAT_B8G8R8A8_SRGB && colorSpace == VK_COLOR_SPACE_SRGB_NONLINEAR_KHR`. -/
def isPreferredFormat (f : VkSurfaceFormatKHR) : Bool :=
  f.format == VK_FORMAT_B8G8R8A8_SRGB &&
  f.colorSpace == VK_COLOR_SPACE_SRGB_NONLINEAR_KHR

/-- `VulkanRenderer::chooseSwapSurfaceFormat` (VulkanRenderer.cpp:370-377):
scan `availableFormats` in order and return the first entry satisfying
`isPreferredFormat`; if none matches, return `availableFormats[0]`.  The
out-of-bounds access on an empty vector is modelled by the `Option` result
(`none` exactly on the empty list). -/
def chooseSwapSurfaceFormat (availableFormats : List VkSurfaceFormatKHR) :
    Option VkSurfaceFormatKHR :=
  match availableFormats.find? isPreferredFormat with
  | some f => some f
  | none => availableFormats.head?

/-- `VulkanRenderer::chooseSwapExtent` (VulkanRenderer.cpp:386-399).
The window's pixel size (`SDL_GetWindowSizeInPixels`) is passed in as
`windowWidth`/`windowHeight`.  The source discriminates the "undefined"
sentinel by testing only the `width` component of `currentExtent` against
`UINT32_MAX`. -/
def chooseSwapExtent (windowWidth windowHeight : Nat)
    (capabilities : VkSurfaceCapabilitiesKHR) : VkExtent2D :=
  if capabilities.currentExtent.width ≠ UINT32_MAX then
    capabilities.currentExtent
  else
    { width := stdClamp windowWidth
        capabilities.minImageExtent.width capabilities.maxImageExtent.width,
      height := stdClamp windowHeight
        capabilities.minImageExtent.height capabilities.maxImageExtent.height }

/-- The image-count computation of `VulkanRenderer::createSwapChain`
(VulkanRenderer.cpp:405-408): `imageCount = minImageCount + 1`, then if
`maxImageCount > 0 && imageCount > maxImageCount` set `imageCount`
to `maxImageCount`. -/
def swapChainImageCount (capabilities : VkSurfaceCapabilitiesKHR) : Nat :=
  let imageCount := capabilities.minImageCount + 1
  if capabilities.maxImageCount > 0 ∧ imageCount > capabilities.maxImageCount then
    capabilities.maxImageCount
  else
    imageCount

/-- `QueueFamilyIndices` (VulkanRenderer.hpp): two optional `uint32_t` indices. -/
structure QueueFamilyIndices where
  graphicsFamily : Option Nat := none
  presentFamily : Option Nat := none
deriving DecidableEq, Repr

/-- `QueueFamilyIndices::isComplete`: both indices have a value. -/
def QueueFamilyIndices.isComplete (q : QueueFamilyIndices) : Bool :=
  q.graphicsFamily.isSome && q.presentFamily.isSome

/-- One queue family of a physical device, reduced to the two capabilities the
scan in `findQueueFamilies` reads: `queueFlags & VK_QUEUE_GRAPHICS_BIT` and the
`vkGetPhysicalDeviceSurfaceSupportKHR` answer for that family index against the
bound surface. -/
structure QueueFamilyProps where
  hasGraphics : Bool
  presentSupport : Bool
deriving DecidableEq, Repr

/-- The loop body of `VulkanRenderer::findQueueFamilies`
(VulkanRenderer.cpp:251-263): for each family at index `i`, overwrite
`graphicsFamily` with `i` if the family has the graphics bit, overwrite
`presentFamily` with `i` if the family can present, then break as soon as
`indices.isComplete()`. -/
def findQueueFamiliesAux : List QueueFamilyProps → Nat → QueueFamilyIndices →
    QueueFamilyIndices
  | [], _, indices => indices
  | qf :: rest, i, indices =>
    let indices :=
      if qf.hasGraphics then { indices with graphicsFamily := some i } else indices
    let indices :=
      if qf.presentSupport then { indices with presentFamily := some i } else indices
    if indices.isComplete then indices else findQueueFamiliesAux rest (i + 1) indices

/-- `VulkanRenderer::findQueueFamilies` (VulkanRenderer.cpp:244-265), with the
device's queue-family list (in enumeration order) passed in. -/
def findQueueFamilies (queueFamilies : List QueueFamilyProps) : QueueFamilyIndices :=
  findQueueFamiliesAux queueFamilies 0 {}

/-- Index of the last element of a list satisfying `p`, if any
(specification-side helper for characterizing the overwriting scan). -/
def lastIdxWith (p : QueueFamilyProps → Bool) : List QueueFamilyProps → Option Nat
  | [] => none
  | q :: rest =>
    match lastIdxWith p rest with
    | some j => some (j + 1)
    | none => if p q then some 0 else none

/-- Length of the shortest non-empty run the scan actually processes, given
which capabilities were already seen: the scan stops right after the first
index at which both a graphics-capable and a present-capable family have been
seen, and otherwise runs the whole list. -/
def scanLenAux : List QueueFamilyProps → Bool → Bool → Nat
  | [], _, _ => 0
  | q :: rest, g, p =>
    let g := g || q.hasGraphics
    let p := p || q.presentSupport
    if g && p then 1 else 1 + scanLenAux rest g p

/-- Number of queue families `findQueueFamilies` inspects before stopping. -/
def scanLen (queueFamilies : List QueueFamilyProps) : Nat :=
  scanLenAux queueFamilies false false

/-- The letterboxed viewport computed by `VulkanRenderer::recordCommandBuffer`
(VulkanRenderer.cpp:706-727). -/
structure Viewport where
  x : ℚ
  y : ℚ
  width : ℚ
  height : ℚ
deriving DecidableEq, Repr

/-- `targetAspectRatio = 4.0f / 3.0f`, modelled exactly. -/
def targetAspectRatio : ℚ := 4 / 3

/-- The viewport computation of `VulkanRenderer::recordCommandBuffer`
(VulkanRenderer.cpp:706-727), on the current swap-chain extent: if
`width / height > targetAspectRatio` shrink the width to
`height * targetAspectRatio`, else shrink the height to
`width / targetAspectRatio`; center via `(extent - scaled) / 2` offsets.
The C++ `float` arithmetic is modelled with exact rationals. -/
def letterboxViewport (extentWidth extentHeight : Nat) : Viewport :=
  let width0 : ℚ := extentWidth
  let height0 : ℚ := extentHeight
  let width : ℚ :=
    if width0 / height0 > targetAspectRatio then height0 * targetAspectRatio else width0
  let height : ℚ :=
    if width0 / height0 > targetAspectRatio then height0 else width0 / targetAspectRatio
  { x := ((extentWidth : ℚ) - width) / 2,
    y := ((extentHeight : ℚ) - height) / 2,
    width := width,
    height := height }

/-- The `VkResult` values distinguished by `drawFrame`. -/
inductive VkResult where
  | success
  | suboptimalKHR
  | errorOutOfDateKHR
  | otherError
deriving DecidableEq, Repr

/-- The renderer state read and written by `VulkanRenderer::drawFrame`
(VulkanRenderer.cpp:762-811).  `commandBufferCount` is
`m_commandBuffers.size()` (fixed after initialization); `inFlightFences`
records, per frame slot, whether the fence is in its CPU-visible reset state
(`false`) or untouched-since-last-signal (`true`); GPU-side signalling is
asynchronous and outside the model.  `swapChainGeneration` counts how many
times the swap chain has been (re)built, so a recreation is observable as an
increment. -/
structure RendererState where
  commandBufferCount : Nat
  currentFrame : Nat
  inFlightFences : List Bool
  framebufferResized : Bool
  swapChainGeneration : Nat
deriving DecidableEq, Repr

/-- The effect of `VulkanRenderer::recreateSwapChain` on `RendererState`:
the chain is rebuilt (generation increments); `currentFrame`, the fences and
the resize flag are not touched (VulkanRenderer.cpp:821-828). -/
def recreateSwapChainStep (s : RendererState) : RendererState :=
  { s with swapChainGeneration := s.swapChainGeneration + 1 }

/-- The results returned by the two fallible presentation calls inside one
`drawFrame` invocation: `vkAcquireNextImageKHR` and `vkQueuePresentKHR`. -/
structure DrawInput where
  acquireResult : VkResult
  presentResult : VkResult
deriving DecidableEq, Repr

/-- `VulkanRenderer::drawFrame` (VulkanRenderer.cpp:762-811).
Step order as in the source: wait on `inFlightFences[currentFrame]` (no state
change); acquire — on `VK_ERROR_OUT_OF_DATE_KHR` recreate the chain and
return, on any result other than success/suboptimal throw; reset the fence of
the current slot; reset and re-record the command buffer (external effects
only); submit (throw modelled as absent: the claims quantify over
presentation results only); present — on out-of-date, suboptimal or a set
`m_framebufferResized` flag clear the flag and recreate, else on non-success
throw; finally `currentFrame = (currentFrame + 1) % commandBufferCount`. -/
def drawFrame (input : DrawInput) (s : RendererState) : Except String RendererState :=
  if input.acquireResult = VkResult.errorOutOfDateKHR then
    Except.ok (recreateSwapChainStep s)
  else if input.acquireResult ≠ VkResult.success ∧
      input.acquireResult ≠ VkResult.suboptimalKHR then
    Except.error "failed to acquire swap chain image"
  else
    let s1 : RendererState :=
      { s with inFlightFences := s.inFlightFences.set s.currentFrame false }
    if input.presentResult = VkResult.errorOutOfDateKHR ∨
        input.presentResult = VkResult.suboptimalKHR ∨
        s1.framebufferResized = true then
      let s2 := recreateSwapChainStep { s1 with framebufferResized := false }
      Except.ok
        { s2 with currentFrame := (s2.currentFrame + 1) % s2.commandBufferCount }
    else if input.presentResult ≠ VkResult.success then
      Except.error "failed to present swap chain image"
    else
      Except.ok
        { s1 with currentFrame := (s1.currentFrame + 1) % s1.commandBufferCount }

/-- Run `drawFrame` over a list of per-frame results, stopping at the first
thrown error (an uncaught exception ends the frame loop). -/
def runFrames : List DrawInput → RendererState → Except String RendererState
  | [], s => Except.ok s
  | input :: rest, s =>
    match drawFrame input s with
    | Except.ok s1 => runFrames rest s1
    | Except.error e => Except.error e

/-- The number of frames in `inputs` that complete normally (are not aborted
at the acquire step), assuming no frame throws. -/
def completedCount (inputs : List DrawInput) : Nat :=
  (inputs.filter (fun i => i.acquireResult ≠ VkResult.errorOutOfDateKHR)).length

/-- The backend calls issued by `VulkanRenderer::cleanup`
(VulkanRenderer.cpp:42-66), by the handle they operate on. -/
inductive CleanupOp where
  | deviceWaitIdle
  | destroyFramebuffers
  | destroyImageViews
  | destroySwapchain
  | destroyPipeline
  | destroyPipelineLayout
  | destroyRenderPass
  | destroySyncObjects
  | destroyCommandPool
  | destroyDevice
  | destroyDebugMessenger
  | destroySurface
  | destroyInstance
deriving DecidableEq, Repr

/-- Whether a cleanup operation dereferences the device handle `m_device`
(either as the object being destroyed/waited on or as the owning device for a
`vkDestroy*` call). -/
def CleanupOp.touchesDevice : CleanupOp → Bool
  | CleanupOp.destroyDebugMessenger => false
  | CleanupOp.destroySurface => false
  | CleanupOp.destroyInstance => false
  | _ => true

/-- The backend calls issued by `VulkanRenderer::cleanupSwapChain`
(VulkanRenderer.cpp:812-820), in order: destroy every framebuffer, destroy
every image view, destroy the swap chain. -/
def cleanupSwapChainOps : List CleanupOp :=
  [CleanupOp.destroyFramebuffers, CleanupOp.destroyImageViews,
   CleanupOp.destroySwapchain]

/-- The backend calls issued by `VulkanRenderer::cleanup`
(VulkanRenderer.cpp:42-66) as a function of `ENABLE_VALIDATION_LAYER` and the
`m_initialized` flag at entry: `vkDeviceWaitIdle(m_device)` runs first,
unconditionally; all destruction is guarded by `m_initialized`. -/
def cleanupOps (enableValidationLayer : Bool) (isInitialized : Bool) : List CleanupOp :=
  CleanupOp.deviceWaitIdle ::
    (if isInitialized then
      cleanupSwapChainOps ++
      [CleanupOp.destroyPipeline, CleanupOp.destroyPipelineLayout,
       CleanupOp.destroyRenderPass, CleanupOp.destroySyncObjects,
       CleanupOp.destroyCommandPool, CleanupOp.destroyDevice] ++
      (if enableValidationLayer then [CleanupOp.destroyDebugMessenger] else []) ++
      [CleanupOp.destroySurface, CleanupOp.destroyInstance]
    else [])

/-- `m_initialized` after `cleanup` returns: cleared when it was set, left
clear otherwise (VulkanRenderer.cpp:61-64). -/
def cleanupNextInitFlag (isInitialized : Bool) : Bool :=
  if isInitialized then false else isInitialized

/-- The presentation-chain resources and their neighbours, as generation
counters: a counter increments each time the corresponding object is created
anew, and the `...Alive` flags track whether the current object has been
destroyed.  Used to model `cleanupSwapChain`/`recreateSwapChain`. -/
structure ChainResources where
  swapChainAlive : Bool
  imageViewsAlive : Bool
  framebuffersAlive : Bool
  swapChainGen : Nat
  imageViewsGen : Nat
  framebuffersGen : Nat
  renderPassGen : Nat
  pipelineGen : Nat
  pipelineLayoutGen : Nat
  commandPoolGen : Nat
  commandBuffersGen : Nat
  syncObjectsGen : Nat
deriving DecidableEq, Repr

/-- The step trace of `recreateSwapChain`: the call it makes on the device
plus the destruction/creation calls of its callees. -/
inductive ChainOp where
  | deviceWaitIdle
  | destroyFramebuffers
  | destroyImageViews
  | destroySwapchain
  | createSwapchain
  | createImageViews
  | createFramebuffers
deriving DecidableEq, Repr

/-- `VulkanRenderer::cleanupSwapChain` (VulkanRenderer.cpp:812-820) on
`ChainResources`: destroys the framebuffers, then the image views, then the
swap chain; touches nothing else. -/
def cleanupSwapChainFn (s : ChainResources) : ChainResources × List ChainOp :=
  ({ s with framebuffersAlive := false, imageViewsAlive := false,
            swapChainAlive := false },
   [ChainOp.destroyFramebuffers, ChainOp.destroyImageViews, ChainOp.destroySwapchain])

/-- `VulkanRenderer::createSwapChain` (VulkanRenderer.cpp:400-447) on
`ChainResources`: builds a fresh swap chain. -/
def createSwapChainFn (s : ChainResources) : ChainResources × List ChainOp :=
  ({ s with swapChainAlive := true, swapChainGen := s.swapChainGen + 1 },
   [ChainOp.createSwapchain])

/-- `VulkanRenderer::createImageViews` (VulkanRenderer.cpp:448-470) on
`ChainResources`: builds fresh image views. -/
def createImageViewsFn (s : ChainResources) : ChainResources × List ChainOp :=
  ({ s with imageViewsAlive := true, imageViewsGen := s.imageViewsGen + 1 },
   [ChainOp.createImageViews])

/-- `VulkanRenderer::createFramebuffers` (VulkanRenderer.cpp:642-659) on
`ChainResources`: builds fresh framebuffers. -/
def createFramebuffersFn (s : ChainResources) : ChainResources × List ChainOp :=
  ({ s with framebuffersAlive := true, framebuffersGen := s.framebuffersGen + 1 },
   [ChainOp.createFramebuffers])

/-- `VulkanRenderer::recreateSwapChain` (VulkanRenderer.cpp:821-828):
`vkDeviceWaitIdle(m_device)`, then `cleanupSwapChain()`, then
`createSwapChain()`, `createImageViews()`, `createFramebuffers()`. -/
def recreateSwapChainFn (s : ChainResources) : ChainResources × List ChainOp :=
  let r1 := cleanupSwapChainFn s
  let r2 := createSwapChainFn r1.1
  let r3 := createImageViewsFn r2.1
  let r4 := createFramebuffersFn r3.1
  (r4.1, ChainOp.deviceWaitIdle :: (r1.2 ++ r2.2 ++ r3.2 ++ r4.2))

/-- Shift an optional index by an offset, with a fallback value when absent
(specification-side helper used to state the accumulator invariant of the
queue-family scan). -/
def shiftOr (off : Nat) (x : Option Nat) (fallback : Option Nat) : Option Nat :=
  match x with
  | some j => some (off + j)
  | none => fallback

/-- Claim C1: when `vkAcquireNextImageKHR` reports the swap chain out-of-date,
`drawFrame` aborts the frame immediately: it triggers swap-chain recreation
(the generation counter increments) and returns without resetting the
in-flight fence of the current frame slot and without advancing
`currentFrame`, so the next `drawFrame` call reuses the same fence state and
the same frame slot. -/
theorem drawFrame_out_of_date_aborts (input : DrawInput) (s : RendererState)
    (h : input.acquireResult = VkResult.errorOutOfDateKHR) :
    drawFrame input s = Except.ok (recreateSwapChainStep s) ∧
    (recreateSwapChainStep s).currentFrame = s.currentFrame ∧
    (recreateSwapChainStep s).inFlightFences = s.inFlightFences ∧
    (recreateSwapChainStep s).framebufferResized = s.framebufferResized ∧
    (recreateSwapChainStep s).swapChainGeneration = s.swapChainGeneration + 1 := by
  refine ⟨?_, rfl, rfl, rfl, rfl⟩
  simp [drawFrame, h]

/-- Witness for claim C1 at a concrete renderer state and acquire result. -/
theorem drawFrame_out_of_date_aborts_witness :
    (({ acquireResult := VkResult.errorOutOfDateKHR,
        presentResult := VkResult.success } : DrawInput).acquireResult =
      VkResult.errorOutOfDateKHR) ∧
    (drawFrame
        { acquireResult := VkResult.errorOutOfDateKHR, presentResult := VkResult.success }
        { commandBufferCount := 2, currentFrame := 1, inFlightFences := [true, true],
          framebufferResized := false, swapChainGeneration := 0 } =
      Except.ok (recreateSwapChainStep
        { commandBufferCount := 2, currentFrame := 1, inFlightFences := [true, true],
          framebufferResized := false, swapChainGeneration := 0 })) :=
  ⟨rfl, (drawFrame_out_of_date_aborts _ _ rfl).1⟩

/-- Claim C4 (code bug): on a renderer whose initialization never completed
(or after `cleanup` has already run, both states having `m_initialized =
false`), `cleanup` still issues exactly one backend call,
`vkDeviceWaitIdle(m_device)` — an operation on the uninitialized or
already-destroyed device handle — because the wait-idle call precedes the
`m_initialized` guard in the source.  The claim requires that no operation
touch the device handle in these states. -/
theorem cleanup_touches_device_uninitialized (enableValidationLayer : Bool) :
    cleanupOps enableValidationLayer false = [CleanupOp.deviceWaitIdle] ∧
    CleanupOp.deviceWaitIdle.touchesDevice = true ∧
    cleanupNextInitFlag false = false :=
  ⟨by simp [cleanupOps], rfl, rfl⟩

/-- Claim C5: `createSwapChain` requests `minImageCount + 1` images, clamped
down to `maxImageCount` whenever `maxImageCount` is nonzero (zero meaning
unbounded); in particular capabilities with `minImageCount = 2` and
`maxImageCount = 2` yield a requested count of 2. -/
theorem swapChainImageCount_min_plus_one_clamped (caps : VkSurfaceCapabilitiesKHR) :
    swapChainImageCount caps =
      (if caps.maxImageCount ≠ 0
        then min (caps.minImageCount + 1) caps.maxImageCount
        else caps.minImageCount + 1) ∧
    swapChainImageCount
      { minImageCount := 2, maxImageCount := 2, currentExtent := ⟨0, 0⟩,
        minImageExtent := ⟨0, 0⟩, maxImageExtent := ⟨0, 0⟩ } = 2 := by
  refine ⟨?_, by decide⟩
  simp only [swapChainImageCount]
  split_ifs <;> omega

/-- Claim C7: `recreateSwapChain` performs, in order, a full device idle-wait,
destruction of the framebuffers, image views and swap chain, then recreation
of the swap chain, image views and framebuffers; the render pass, pipeline,
pipeline layout, command pool, command buffers and synchronization objects
are not rebuilt or otherwise modified. -/
theorem recreateSwapChain_order_and_preservation (s : ChainResources) :
    (recreateSwapChainFn s).2 =
      [ChainOp.deviceWaitIdle, ChainOp.destroyFramebuffers, ChainOp.destroyImageViews,
       ChainOp.destroySwapchain, ChainOp.createSwapchain, ChainOp.createImageViews,
       ChainOp.createFramebuffers] ∧
    (recreateSwapChainFn s).1.swapChainGen = s.swapChainGen + 1 ∧
    (recreateSwapChainFn s).1.imageViewsGen = s.imageViewsGen + 1 ∧
    (recreateSwapChainFn s).1.framebuffersGen = s.framebuffersGen + 1 ∧
    (recreateSwapChainFn s).1.renderPassGen = s.renderPassGen ∧
    (recreateSwapChainFn s).1.pipelineGen = s.pipelineGen ∧
    (recreateSwapChainFn s).1.pipelineLayoutGen = s.pipelineLayoutGen ∧
    (recreateSwapChainFn s).1.commandPoolGen = s.commandPoolGen ∧
    (recreateSwapChainFn s).1.commandBuffersGen = s.commandBuffersGen ∧
    (recreateSwapChainFn s).1.syncObjectsGen = s.syncObjectsGen ∧
    (recreateSwapChainFn s).1.swapChainAlive = true ∧
    (recreateSwapChainFn s).1.imageViewsAlive = true ∧
    (recreateSwapChainFn s).1.framebuffersAlive = true :=
  ⟨rfl, rfl, rfl, rfl, rfl, rfl, rfl, rfl, rfl, rfl, rfl, rfl, rfl⟩

/-- Claim C9: when `currentExtent.width` differs from the `uint32` maximum
(the source discriminates the "undefined extent" sentinel by this component
alone), `chooseSwapExtent` returns `currentExtent` verbatim, independent of
the window's pixel size; when the sentinel is reported, it returns the
window's pixel size clamped component-wise into
`[minImageExtent, maxImageExtent]` — concretely, window size (50, 50) with
minimum (100, 100) yields (100, 100). -/
theorem chooseSwapExtent_current_or_clamped (windowWidth windowHeight : Nat)
    (caps : VkSurfaceCapabilitiesKHR) :
    (caps.currentExtent.width ≠ UINT32_MAX →
      chooseSwapExtent windowWidth windowHeight caps = caps.currentExtent) ∧
    (caps.currentExtent.width = UINT32_MAX →
      chooseSwapExtent windowWidth windowHeight caps =
        { width := stdClamp windowWidth
            caps.minImageExtent.width caps.maxImageExtent.width,
          height := stdClamp windowHeight
            caps.minImageExtent.height caps.maxImageExtent.height }) ∧
    chooseSwapExtent 50 50
      { minImageCount := 2, maxImageCount := 3,
        currentExtent := ⟨UINT32_MAX, UINT32_MAX⟩,
        minImageExtent := ⟨100, 100⟩, maxImageExtent := ⟨4096, 4096⟩ } =
      ⟨100, 100⟩ := by
  refine ⟨fun h => ?_, fun h => ?_, by decide⟩
  · simp [chooseSwapExtent, h]
  · simp [chooseSwapExtent, h]

/-- Witness for claim C9: both branch hypotheses discharged at concrete
capabilities values. -/
theorem chooseSwapExtent_current_or_clamped_witness :
    ((⟨800, 600⟩ : VkExtent2D).width ≠ UINT32_MAX) ∧
    chooseSwapExtent 50 50
      { minImageCount := 2, maxImageCount := 3, currentExtent := ⟨800, 600⟩,
        minImageExtent := ⟨100, 100⟩, maxImageExtent := ⟨4096, 4096⟩ } =
      ⟨800, 600⟩ :=
  ⟨by decide,
   (chooseSwapExtent_current_or_clamped 50 50
     { minImageCount := 2, maxImageCount := 3, currentExtent := ⟨800, 600⟩,
       minImageExtent := ⟨100, 100⟩, maxImageExtent := ⟨4096, 4096⟩ }).1 (by decide)⟩

/-- The scan predicate of `chooseSwapSurfaceFormat` holds exactly on the
preferred (B8G8R8A8_SRGB, SRGB_NONLINEAR) pair. -/
theorem isPreferredFormat_iff (f : VkSurfaceFormatKHR) :
    isPreferredFormat f = true ↔ f = preferredSurfaceFormat := by
  obtain ⟨ff, fc⟩ := f
  simp [isPreferredFormat, preferredSurfaceFormat, VkSurfaceFormatKHR.mk.injEq]

/-- Unfolding lemma: a successful scan makes `chooseSwapSurfaceFormat` return
the found entry. -/
theorem chooseSwapSurfaceFormat_of_find_some {fmts : List VkSurfaceFormatKHR}
    {f : VkSurfaceFormatKHR} (h : fmts.find? isPreferredFormat = some f) :
    chooseSwapSurfaceFormat fmts = some f := by
  unfold chooseSwapSurfaceFormat
  rw [h]

/-- Unfolding lemma: a failed scan makes `chooseSwapSurfaceFormat` fall back
to the first supported format. -/
theorem chooseSwapSurfaceFormat_of_find_none {fmts : List VkSurfaceFormatKHR}
    (h : fmts.find? isPreferredFormat = none) :
    chooseSwapSurfaceFormat fmts = fmts.head? := by
  unfold chooseSwapSurfaceFormat
  rw [h]

/-- Claim C8: for every non-empty list of supported surface formats,
`chooseSwapSurfaceFormat` returns the (8-bit BGRA, sRGB nonlinear) pair
whenever that pair occurs anywhere in the list, and otherwise returns the
first element of the list, for any ordering of the list. -/
theorem chooseSwapSurfaceFormat_preferred_or_first
    (availableFormats : List VkSurfaceFormatKHR) (hne : availableFormats ≠ []) :
    (preferredSurfaceFormat ∈ availableFormats →
      chooseSwapSurfaceFormat availableFormats = some preferredSurfaceFormat) ∧
    (preferredSurfaceFormat ∉ availableFormats →
      chooseSwapSurfaceFormat availableFormats = availableFormats.head?) ∧
    availableFormats.head?.isSome = true := by
  refine ⟨?_, ?_, by cases availableFormats <;> simp_all⟩
  · intro hmem
    cases hfind : availableFormats.find? isPreferredFormat with
    | none =>
        exact absurd ((isPreferredFormat_iff preferredSurfaceFormat).mpr rfl)
          (List.find?_eq_none.mp hfind _ hmem)
    | some f =>
        rw [chooseSwapSurfaceFormat_of_find_some hfind,
          (isPreferredFormat_iff f).mp (List.find?_some hfind)]
  · intro hnot
    refine chooseSwapSurfaceFormat_of_find_none ?_
    refine List.find?_eq_none.mpr fun x hx hpx => ?_
    exact hnot (((isPreferredFormat_iff x).mp hpx) ▸ hx)

/-- Witness for claim C8 on a concrete two-element format list. -/
theorem chooseSwapSurfaceFormat_preferred_or_first_witness :
    (([⟨1, 2⟩, preferredSurfaceFormat] : List VkSurfaceFormatKHR) ≠ []) ∧
    (preferredSurfaceFormat ∈ ([⟨1, 2⟩, preferredSurfaceFormat] :
        List VkSurfaceFormatKHR)) ∧
    chooseSwapSurfaceFormat [⟨1, 2⟩, preferredSurfaceFormat] =
      some preferredSurfaceFormat :=
  ⟨by decide, by decide,
   (chooseSwapSurfaceFormat_preferred_or_first
     [⟨1, 2⟩, preferredSurfaceFormat] (by decide)).1 (by decide)⟩

/-- Claim C6: `recordCommandBuffer` computes a letterboxed viewport preserving
the 4:3 target aspect ratio centered in the swap-chain extent: when the extent
is too wide the width shrinks to `height * (4/3)` with the horizontal leftover
split evenly and zero vertical offset, otherwise the height shrinks to
`width / (4/3)` with the vertical leftover split evenly and zero horizontal
offset; concretely extent (800, 600) gives the full extent at zero offsets,
(1000, 600) gives width 800 at x-offset 100, and (800, 1000) gives height 600
at y-offset 200.  The C++ `float` arithmetic is modelled exactly over ℚ. -/
theorem letterboxViewport_four_thirds (extentWidth extentHeight : Nat)
    (_hpos : 0 < extentHeight) :
    (((extentWidth : ℚ) / (extentHeight : ℚ) > 4 / 3) →
      letterboxViewport extentWidth extentHeight =
        { x := ((extentWidth : ℚ) - (extentHeight : ℚ) * (4 / 3)) / 2, y := 0,
          width := (extentHeight : ℚ) * (4 / 3), height := (extentHeight : ℚ) }) ∧
    (¬ ((extentWidth : ℚ) / (extentHeight : ℚ) > 4 / 3) →
      letterboxViewport extentWidth extentHeight =
        { x := 0, y := ((extentHeight : ℚ) - (extentWidth : ℚ) / (4 / 3)) / 2,
          width := (extentWidth : ℚ), height := (extentWidth : ℚ) / (4 / 3) }) ∧
    letterboxViewport 800 600 = { x := 0, y := 0, width := 800, height := 600 } ∧
    letterboxViewport 1000 600 = { x := 100, y := 0, width := 800, height := 600 } ∧
    letterboxViewport 800 1000 = { x := 0, y := 200, width := 800, height := 600 } := by
  refine ⟨fun hgt => ?_, fun hle => ?_, ?_, ?_, ?_⟩
  · simp only [letterboxViewport, targetAspectRatio]
    rw [if_pos hgt, if_pos hgt,
      show ((extentHeight : ℚ) - (extentHeight : ℚ)) / 2 = 0 by ring]
  · simp only [letterboxViewport, targetAspectRatio]
    rw [if_neg hle, if_neg hle,
      show ((extentWidth : ℚ) - (extentWidth : ℚ)) / 2 = 0 by ring]
  · simp only [letterboxViewport, targetAspectRatio]
    norm_num [Viewport.mk.injEq]
  · simp only [letterboxViewport, targetAspectRatio]
    norm_num [Viewport.mk.injEq]
  · simp only [letterboxViewport, targetAspectRatio]
    norm_num [Viewport.mk.injEq]

/-- Witness for claim C6 at the concrete extent (1000, 600). -/
theorem letterboxViewport_four_thirds_witness :
    (0 < 600) ∧
    letterboxViewport 1000 600 = { x := 100, y := 0, width := 800, height := 600 } :=
  ⟨by decide, (letterboxViewport_four_thirds 1000 600 (by decide)).2.2.2.1⟩

/-- Claim C10: on the early-abort path of `drawFrame` (an out-of-date acquire
result) the framebuffer-resized flag is left unchanged, so a resize request
set before an aborted acquire survives the abort and still triggers a
swap-chain recreation (generation increment) — and is cleared — at the next
successfully presented frame. -/
theorem resized_flag_survives_abort (s : RendererState) (input1 input2 : DrawInput)
    (hacq1 : input1.acquireResult = VkResult.errorOutOfDateKHR)
    (hsz : s.framebufferResized = true)
    (hacq2 : input2.acquireResult = VkResult.success) :
    ∃ s1, drawFrame input1 s = Except.ok s1 ∧
      s1.framebufferResized = s.framebufferResized ∧
      ∃ s2, drawFrame input2 s1 = Except.ok s2 ∧
        s2.swapChainGeneration = s1.swapChainGeneration + 1 ∧
        s2.framebufferResized = false := by
  refine ⟨recreateSwapChainStep s, by simp [drawFrame, hacq1], rfl, ?_⟩
  refine ⟨{ commandBufferCount := s.commandBufferCount,
            currentFrame := (s.currentFrame + 1) % s.commandBufferCount,
            inFlightFences := s.inFlightFences.set s.currentFrame false,
            framebufferResized := false,
            swapChainGeneration := s.swapChainGeneration + 1 + 1 }, ?_, rfl, rfl⟩
  simp [drawFrame, hacq2, hsz, recreateSwapChainStep]

/-- Witness for claim C10 at a concrete renderer state with the resize flag
set, an aborted acquire, then a fully successful frame. -/
theorem resized_flag_survives_abort_witness :
    (({ acquireResult := VkResult.errorOutOfDateKHR,
        presentResult := VkResult.success } : DrawInput).acquireResult =
      VkResult.errorOutOfDateKHR) ∧
    (({ commandBufferCount := 2, currentFrame := 0, inFlightFences := [true, true],
        framebufferResized := true, swapChainGeneration := 0 } :
        RendererState).framebufferResized = true) ∧
    (({ acquireResult := VkResult.success,
        presentResult := VkResult.success } : DrawInput).acquireResult =
      VkResult.success) ∧
    ∃ s1, drawFrame
        { acquireResult := VkResult.errorOutOfDateKHR, presentResult := VkResult.success }
        { commandBufferCount := 2, currentFrame := 0, inFlightFences := [true, true],
          framebufferResized := true, swapChainGeneration := 0 } = Except.ok s1 ∧
      s1.framebufferResized =
        ({ commandBufferCount := 2, currentFrame := 0, inFlightFences := [true, true],
           framebufferResized := true, swapChainGeneration := 0 } :
           RendererState).framebufferResized ∧
      ∃ s2, drawFrame
          { acquireResult := VkResult.success, presentResult := VkResult.success }
          s1 = Except.ok s2 ∧
        s2.swapChainGeneration = s1.swapChainGeneration + 1 ∧
        s2.framebufferResized = false :=
  ⟨rfl, rfl, rfl,
   resized_flag_survives_abort
     { commandBufferCount := 2, currentFrame := 0, inFlightFences := [true, true],
       framebufferResized := true, swapChainGeneration := 0 }
     { acquireResult := VkResult.errorOutOfDateKHR, presentResult := VkResult.success }
     { acquireResult := VkResult.success, presentResult := VkResult.success }
     rfl rfl rfl⟩

/-- `shiftOr` with offset 0 and no fallback is the identity. -/
theorem shiftOr_zero_none (x : Option Nat) : shiftOr 0 x none = x := by
  cases x <;> simp [shiftOr]

/-- Accumulator invariant of the queue-family scan: starting `findQueueFamiliesAux`
at offset `off` with a not-yet-complete accumulator `⟨g, p⟩` yields, for each
capability, the last index (shifted by `off`) carrying that capability within
the prefix the scan processes — the shortest prefix after which both
capabilities have been seen (counting the accumulator), or the whole list —
falling back to the accumulator value when the prefix has no such family. -/
theorem findQueueFamiliesAux_spec (qs : List QueueFamilyProps) :
    ∀ (off : Nat) (g p : Option Nat), (g.isSome && p.isSome) = false →
    findQueueFamiliesAux qs off { graphicsFamily := g, presentFamily := p } =
      { graphicsFamily :=
          shiftOr off (lastIdxWith (fun q => q.hasGraphics)
            (qs.take (scanLenAux qs g.isSome p.isSome))) g,
        presentFamily :=
          shiftOr off (lastIdxWith (fun q => q.presentSupport)
            (qs.take (scanLenAux qs g.isSome p.isSome))) p } := by
  induction qs with
  | nil =>
      intro off g p _
      simp [findQueueFamiliesAux, scanLenAux, lastIdxWith, shiftOr]
  | cons q rest ih =>
      intro off g p hgp
      obtain ⟨qg, qp⟩ := q
      have hstep : findQueueFamiliesAux (⟨qg, qp⟩ :: rest) off
          { graphicsFamily := g, presentFamily := p } =
          if ((if qg then some off else g).isSome &&
              (if qp then some off else p).isSome) then
            ({ graphicsFamily := if qg then some off else g,
               presentFamily := if qp then some off else p } : QueueFamilyIndices)
          else
            findQueueFamiliesAux rest (off + 1)
              { graphicsFamily := if qg then some off else g,
                presentFamily := if qp then some off else p } := by
        cases qg <;> cases qp <;>
          simp [findQueueFamiliesAux, QueueFamilyIndices.isComplete]
      have hscan : scanLenAux (⟨qg, qp⟩ :: rest) g.isSome p.isSome =
          if ((if qg then some off else g).isSome &&
              (if qp then some off else p).isSome) then 1
          else 1 + scanLenAux rest (if qg then some off else g).isSome
            (if qp then some off else p).isSome := by
        cases qg <;> cases qp <;> cases g <;> cases p <;>
          simp [scanLenAux]
      rw [hstep, hscan]
      by_cases hc : ((if qg then some off else g).isSome &&
          (if qp then some off else p).isSome) = true
      · rw [if_pos hc, if_pos hc]
        cases qg <;> cases qp <;>
          simp [lastIdxWith, shiftOr, QueueFamilyIndices.mk.injEq]
      · rw [if_neg hc, if_neg hc,
          ih (off + 1) (if qg then some off else g) (if qp then some off else p)
            (by revert hc; cases hb : ((if qg then some off else g).isSome &&
              (if qp then some off else p).isSome) <;> simp)]
        rw [Nat.add_comm 1, List.take_succ_cons]
        cases hLg : lastIdxWith (fun q => q.hasGraphics)
            (rest.take (scanLenAux rest (if qg then some off else g).isSome
              (if qp then some off else p).isSome)) <;>
        cases hLp : lastIdxWith (fun q => q.presentSupport)
            (rest.take (scanLenAux rest (if qg then some off else g).isSome
              (if qp then some off else p).isSome)) <;>
          cases qg <;> cases qp <;>
            simp_all [lastIdxWith, shiftOr, QueueFamilyIndices.mk.injEq] <;>
              omega

/-- Claim C2 counterexample: for the queue-family list
`[graphics-only, graphics-and-present]`, `findQueueFamilies` records
`graphicsFamily = 1` although the first family with graphics capability is
family 0 (because the scan keeps overwriting `graphicsFamily` until both
indices are recorded). -/
theorem findQueueFamilies_not_first_graphics :
    (findQueueFamilies
        [{ hasGraphics := true, presentSupport := false },
         { hasGraphics := true, presentSupport := true }]).graphicsFamily = some 1 ∧
    List.findIdx (fun q => q.hasGraphics)
        [({ hasGraphics := true, presentSupport := false } : QueueFamilyProps),
         { hasGraphics := true, presentSupport := true }] = 0 ∧
    (some 1 : Option Nat) ≠ some 0 := by
  decide

/-- Claim C2 (amended): `findQueueFamilies` scans the queue families in
enumeration order and stops as soon as both indices are recorded (after the
first family at which both a graphics-capable and a present-capable family
have been seen, or at the end of the list); within that scanned prefix it
records into `graphicsFamily` the LAST family index with graphics capability
and into `presentFamily` the LAST family index with presentation capability —
each record is overwritten at every later matching family of the prefix, so
the recorded index is not necessarily the first such family. -/
theorem findQueueFamilies_scan_characterization (queueFamilies : List QueueFamilyProps) :
    findQueueFamilies queueFamilies =
      { graphicsFamily := lastIdxWith (fun q => q.hasGraphics)
          (queueFamilies.take (scanLen queueFamilies)),
        presentFamily := lastIdxWith (fun q => q.presentSupport)
          (queueFamilies.take (scanLen queueFamilies)) } := by
  have h := findQueueFamiliesAux_spec queueFamilies 0 none none rfl
  simp only [Option.isSome_none] at h
  rw [findQueueFamilies]
  rw [show ({} : QueueFamilyIndices) =
    { graphicsFamily := none, presentFamily := none } from rfl]
  rw [h, scanLen, shiftOr_zero_none, shiftOr_zero_none]

/-- Per-invocation effect of `drawFrame` on the frame counter: the
command-buffer count never changes; an out-of-date acquire leaves
`currentFrame` untouched; any other non-throwing invocation advances it by
exactly 1 modulo the command-buffer count. -/
theorem drawFrame_currentFrame_step (input : DrawInput) (s s' : RendererState)
    (h : drawFrame input s = Except.ok s') :
    s'.commandBufferCount = s.commandBufferCount ∧
    (input.acquireResult = VkResult.errorOutOfDateKHR →
      s'.currentFrame = s.currentFrame) ∧
    (input.acquireResult ≠ VkResult.errorOutOfDateKHR →
      s'.currentFrame = (s.currentFrame + 1) % s.commandBufferCount) := by
  by_cases hacq : input.acquireResult = VkResult.errorOutOfDateKHR
  · simp only [drawFrame, if_pos hacq, Except.ok.injEq] at h
    subst h
    exact ⟨rfl, fun _ => rfl, fun hn => absurd hacq hn⟩
  · simp only [drawFrame, if_neg hacq] at h
    split_ifs at h with h1 h2 h3
    · rw [Except.ok.injEq] at h
      subst h
      exact ⟨rfl, fun hy => absurd hy hacq, fun _ => rfl⟩
    · rw [Except.ok.injEq] at h
      subst h
      exact ⟨rfl, fun hy => absurd hy hacq, fun _ => rfl⟩

/-- Run invariant for claim C3: over any run of the frame loop that throws no
fatal error, `currentFrame` equals its initial value plus the number of
normally completed (not acquire-aborted) frames, modulo the command-buffer
count, and the command-buffer count is unchanged. -/
theorem runFrames_currentFrame (inputs : List DrawInput) :
    ∀ s s' : RendererState, s.currentFrame < s.commandBufferCount →
      runFrames inputs s = Except.ok s' →
      s'.commandBufferCount = s.commandBufferCount ∧
      s'.currentFrame = (s.currentFrame + completedCount inputs) % s.commandBufferCount := by
  induction inputs with
  | nil =>
      intro s s' hlt hrun
      simp only [runFrames, Except.ok.injEq] at hrun
      subst hrun
      exact ⟨rfl, by simp [completedCount, Nat.mod_eq_of_lt hlt]⟩
  | cons input rest ih =>
      intro s s' hlt hrun
      simp only [runFrames] at hrun
      cases hd : drawFrame input s with
      | error e => rw [hd] at hrun; cases hrun
      | ok s1 =>
          rw [hd] at hrun
          obtain ⟨hN, hStay, hAdv⟩ := drawFrame_currentFrame_step input s s1 hd
          have hpos : 0 < s.commandBufferCount :=
            Nat.lt_of_le_of_lt (Nat.zero_le _) hlt
          by_cases hacq : input.acquireResult = VkResult.errorOutOfDateKHR
          · have hcf : s1.currentFrame = s.currentFrame := hStay hacq
            obtain ⟨ihN, ihcf⟩ := ih s1 s' (by rw [hcf, hN]; exact hlt) hrun
            refine ⟨ihN.trans hN, ?_⟩
            rw [ihcf, hcf, hN]
            have : completedCount (input :: rest) = completedCount rest := by
              simp [completedCount, List.filter, hacq]
            rw [this]
          · have hcf : s1.currentFrame = (s.currentFrame + 1) % s.commandBufferCount :=
              hAdv hacq
            obtain ⟨ihN, ihcf⟩ := ih s1 s'
              (by rw [hcf, hN]; exact Nat.mod_lt _ hpos) hrun
            refine ⟨ihN.trans hN, ?_⟩
            rw [ihcf, hcf, hN]
            have : completedCount (input :: rest) = completedCount rest + 1 := by
              simp [completedCount, List.filter, hacq]
            rw [this, Nat.mod_add_mod]
            congr 1
            omega

/-- Claim C3: `currentFrame` is a pure function of the number of normally
completed (submitted-and-presented, not acquire-aborted) frames modulo `N`,
the command-buffer count: over any non-throwing run it equals the initial
value plus the completed-frame count mod `N`, and in particular after exactly
`N` completed frames it returns to its initial value. -/
theorem currentFrame_pure_mod (inputs : List DrawInput) (s s' : RendererState)
    (hlt : s.currentFrame < s.commandBufferCount)
    (hrun : runFrames inputs s = Except.ok s') :
    s'.currentFrame = (s.currentFrame + completedCount inputs) % s.commandBufferCount ∧
    (completedCount inputs = s.commandBufferCount → s'.currentFrame = s.currentFrame) := by
  obtain ⟨_, hcf⟩ := runFrames_currentFrame inputs s s' hlt hrun
  refine ⟨hcf, fun hc => ?_⟩
  rw [hcf, hc, Nat.add_mod_right, Nat.mod_eq_of_lt hlt]

/-- Witness for claim C3: two fully successful frames on a two-slot renderer
return `currentFrame` to its initial value 0. -/
theorem currentFrame_pure_mod_witness :
    ((0 : Nat) < 2 ∧
     runFrames
       [{ acquireResult := VkResult.success, presentResult := VkResult.success },
        { acquireResult := VkResult.success, presentResult := VkResult.success }]
       { commandBufferCount := 2, currentFrame := 0, inFlightFences := [true, true],
         framebufferResized := false, swapChainGeneration := 0 } =
       Except.ok
         { commandBufferCount := 2, currentFrame := 0, inFlightFences := [false, false],
           framebufferResized := false, swapChainGeneration := 0 }) ∧
    (({ commandBufferCount := 2, currentFrame := 0, inFlightFences := [false, false],
        framebufferResized := false, swapChainGeneration := 0 } :
        RendererState).currentFrame =
      (0 + completedCount
        [{ acquireResult := VkResult.success, presentResult := VkResult.success },
         { acquireResult := VkResult.success, presentResult := VkResult.success }]) % 2 ∧
     (completedCount
        [{ acquireResult := VkResult.success, presentResult := VkResult.success },
         { acquireResult := VkResult.success, presentResult := VkResult.success }] = 2 →
       ({ commandBufferCount := 2, currentFrame := 0, inFlightFences := [false, false],
          framebufferResized := false, swapChainGeneration := 0 } :
          RendererState).currentFrame = 0)) :=
  ⟨⟨by decide, rfl⟩,
   currentFrame_pure_mod
     [{ acquireResult := VkResult.success, presentResult := VkResult.success },
      { acquireResult := VkResult.success, presentResult := VkResult.success }]
     { commandBufferCount := 2, currentFrame := 0, inFlightFences := [true, true],
       framebufferResized := false, swapChainGeneration := 0 }
     { commandBufferCount := 2, currentFrame := 0, inFlightFences := [false, false],
       framebufferResized := false, swapChainGeneration := 0 }
     (by decide) rfl⟩

end LearnVulkan
